import Mathlib

/-!
Verification development for the QuizCraft application (src/app.py).

The file shallowly embeds the parts of the program the specification talks
about: the line-oriented quiz parser `parse_questions`, the scoring loop of
the results section, and the streamlit session state with its action
handlers (generate / select / hint / submit / reset).

Python strings are modelled as Lean `String`; the handful of Python string
primitives the program uses (`strip`, `split`, `startswith`, `ord`, list
indexing with negative indices, slicing) are defined below over `String.data`.
Python whitespace is modelled as `Char.isWhitespace` (space, tab, CR, LF),
which agrees with Python on every character the program manipulates.
Fallible Python operations (IndexError on list indexing, TypeError from
`ord` on a non-single-character string) are modelled with `Except PyError`.
-/

deriving instance DecidableEq for Except

namespace QuizCraft

/-- Errors Python can raise in the embedded fragments. -/
inductive PyError where
  | indexError
  | typeError
  deriving DecidableEq, Repr

/-- Python `s.strip()` on a character list: drop whitespace from both ends. -/
def stripCh (cs : List Char) : List Char :=
  ((cs.dropWhile Char.isWhitespace).reverse.dropWhile Char.isWhitespace).reverse

/-- Python `s.split(sep)` for a single-character separator: keeps empty
segments and returns `[s]` when the separator does not occur (so the result
is never the empty list). -/
def splitCh (sep : Char) : List Char → List (List Char)
  | [] => [[]]
  | c :: cs =>
    match splitCh sep cs with
    | [] => [[]]
    | p :: ps => if c = sep then [] :: p :: ps else (c :: p) :: ps

/-- Python `s.strip()` as a `String` operation. -/
def pyStripS (s : String) : String := String.mk (stripCh s.data)

/-- Model of `raw_text.strip().split("\n")` (src/app.py line 74). -/
def pyLines (raw : String) : List String :=
  (splitCh (Char.ofNat 10) (stripCh raw.data)).map String.mk

/-- Python `s.startswith(p)`. -/
def pyStartsWith (s p : String) : Bool := p.data.isPrefixOf s.data

/-- Model of `line.split(":")[-1].strip()` (src/app.py line 81). -/
def ansOf (a : String) : String :=
  String.mk (stripCh ((splitCh ':' a.data).getLastD []))

/-- Question record produced by the parser: the dict
`{"q": ..., "options": ..., "answer": ...}` of src/app.py line 82. -/
structure Question where
  q : String
  options : List String
  answer : String
  deriving DecidableEq, Repr

/-- Core of `parse_questions` (src/app.py lines 76-86).  The Python loop
scans `lines` with an index `i`; on a line starting with `"Q"` it reads
`lines[i+1] .. lines[i+5]` (raising IndexError when fewer than 5 lines
remain) and advances by 6, otherwise it advances by 1.  Scanning with an
index that advances by 1 or 6 is the same as structural recursion on the
remaining suffix of the line list, which is how it is written here. -/
def parse_go0 : List String → Except PyError (List Question)
  | [] => .ok []
  | l :: rest =>
    if pyStartsWith l "Q" then
      match rest with
      | o1 :: o2 :: o3 :: o4 :: a :: rest2 =>
        match parse_go0 rest2 with
        | .error e => .error e
        | .ok qs => .ok ({ q := l, options := [o1, o2, o3, o4], answer := ansOf a } :: qs)
      | _ => .error .indexError
    else parse_go0 rest

/-- Model of `parse_questions` (src/app.py lines 73-86). -/
def parse_questions (raw : String) : Except PyError (List Question) :=
  parse_go0 (pyLines raw)

/-- The single-block example raw text from the specification. -/
def exRaw : String := "Q1. What is 2+2?\na) 3\nb) 4\nc) 5\nd) 6\nAnswer: b"

/-- The question the specification's example raw text parses to. -/
def exQ : Question :=
  { q := "Q1. What is 2+2?", options := ["a) 3", "b) 4", "c) 5", "d) 6"], answer := "b" }

/-! ## Scoring (src/app.py lines 137-162) -/

/-- Python `ord(s)`: the code point of a single-character string, TypeError
otherwise. -/
def pyOrd (s : String) : Except PyError Nat :=
  match s.data with
  | [c] => .ok c.toNat
  | _ => .error .typeError

/-- Python list indexing `xs[i]` with an `int` index: negative indices count
from the end; an index outside `[-len, len)` raises IndexError. -/
def pyIndex (xs : List String) (i : Int) : Except PyError String :=
  let j : Int := if i < 0 then i + xs.length else i
  if 0 ≤ j ∧ j < xs.length then .ok (xs.getD j.toNat "") else .error .indexError

/-- Python slice `s[3:]` (src/app.py line 155). -/
def pyDrop3 (s : String) : String := String.mk (s.data.drop 3)

/-- Python `user_ans or "Not answered"` (src/app.py line 156): `or` also
treats the empty string as falsy. -/
def yourAnswerText (ua : Option String) : String :=
  match ua with
  | none => "Not answered"
  | some t => if t = "" then "Not answered" else t

/-- Body of the `try:` block of the score loop (src/app.py lines 142-144):
`correct_index = ord(q["answer"]) - ord("a"); correct_option =
q["options"][correct_index]`. -/
def scoreTry (q : Question) : Except PyError (Int × String) :=
  match pyOrd q.answer with
  | .error e => .error e
  | .ok o =>
    let ci : Int := (o : Int) - 97
    match pyIndex q.options ci with
    | .error e => .error e
    | .ok co => .ok (ci, co)

/-- One result row of the score loop (src/app.py lines 153-159), together
with the loop-local `correct_index` and the `is_correct` flag the score
accumulation uses. -/
structure ScoreRow where
  q_num : Nat
  question : String
  your_answer : String
  correct_answer : String
  correct_index : Option Int
  is_correct : Bool
  result : String
  deriving DecidableEq, Repr

/-- One iteration of the score loop (src/app.py lines 141-159): the try/except
around the answer-index computation, then
`is_correct = (correct_index is not None) and (user_ans == correct_option)`. -/
def scoreOne (idx : Nat) (q : Question) (ua : Option String) : ScoreRow :=
  match scoreTry q with
  | .ok (ci, co) =>
    { q_num := idx + 1, question := pyDrop3 q.q, your_answer := yourAnswerText ua,
      correct_answer := co, correct_index := some ci,
      is_correct := ua == some co,
      result := if ua == some co then "✅ Correct" else "❌ Incorrect" }
  | .error _ =>
    { q_num := idx + 1, question := pyDrop3 q.q, your_answer := yourAnswerText ua,
      correct_answer := "Unknown", correct_index := none,
      is_correct := false, result := "❌ Incorrect" }

/-- Python `xs[i]` read with a nonnegative index (IndexError out of range). -/
def pyGetO (xs : List (Option String)) (i : Nat) : Except PyError (Option String) :=
  match xs.get? i with
  | some x => .ok x
  | none => .error .indexError

/-- The whole score loop (src/app.py lines 141-159): walks the questions with
`enumerate`, reads `st.session_state.user_answers[idx]` (IndexError when the
answers list is shorter than the questions list), accumulates the score and
collects the result rows in order. -/
def score_go : List Question → List (Option String) → Nat → Except PyError (Nat × List ScoreRow)
  | [], _, _ => .ok (0, [])
  | q :: qs, uas, idx =>
    match pyGetO uas idx with
    | .error e => .error e
    | .ok ua =>
      let row := scoreOne idx q ua
      match score_go qs uas (idx + 1) with
      | .error e => .error e
      | .ok (s, rows) => .ok ((if row.is_correct then 1 else 0) + s, row :: rows)

/-- Score and result rows for a submitted session (src/app.py lines 138-159). -/
def compute_results (qs : List Question) (uas : List (Option String)) :
    Except PyError (Nat × List ScoreRow) :=
  score_go qs uas 0

/-- The displayed score line `st.success(f"🎉 You scored {score} / 10")`
(src/app.py line 162), as the pair (numerator, denominator): the denominator
is the literal 10 of the format string. -/
def score_display (qs : List Question) (uas : List (Option String)) :
    Except PyError (Nat × Nat) :=
  match compute_results qs uas with
  | .error e => .error e
  | .ok (s, _) => .ok (s, 10)

/-! ## Session state and actions (src/app.py lines 38-46, 88-134, 174-178) -/

/-- The four session-state fields (src/app.py lines 39-46). -/
structure SessionState where
  questions : List Question
  user_answers : List (Option String)
  hints : List (Option String)
  submitted : Bool
  deriving DecidableEq, Repr

/-- The initial session state (src/app.py lines 39-46): no questions,
`[None] * 10` answers and hints, not submitted. -/
def initState : SessionState :=
  { questions := [], user_answers := List.replicate 10 none,
    hints := List.replicate 10 none, submitted := false }

/-- The "Start New Quiz" handler (src/app.py lines 175-178): assigns all four
session fields back to their initial values. -/
def reset_session (s : SessionState) : SessionState :=
  { s with questions := [], user_answers := List.replicate 10 none,
           submitted := false, hints := List.replicate 10 none }

/-- Python list element assignment `xs[i] = v` (IndexError out of range). -/
def pySetO (xs : List (Option String)) (i : Nat) (v : Option String) :
    Except PyError (List (Option String)) :=
  if i < xs.length then .ok (xs.set i v) else .error .indexError

/-- The user actions the interface offers.  `generate` carries the topic the
user typed and the raw completion the model returned; `hint` carries the raw
hint completion; `select` carries the chosen option (or `none`). -/
inductive Action where
  | generate (topic : String) (raw : String)
  | select (i : Nat) (choice : Option String)
  | hint (i : Nat) (response : String)
  | submit
  | reset
  deriving DecidableEq, Repr

/-- One user action applied to the session state.  Each branch guards with
the condition under which src/app.py renders the corresponding widget, and is
a no-op when the widget is not on screen:
generate (lines 89-95) needs no questions, not submitted, non-empty topic and
stores the parse result; select and hint (lines 101-124) need an on-screen
question index; submit (lines 133-134) sets the flag; reset (lines 174-178)
is offered on the results screen.  Crashing Python operations (parse
IndexError, out-of-range element assignment) surface as `.error`. -/
def applyAction (s : SessionState) (a : Action) : Except PyError SessionState :=
  match a with
  | .generate topic raw =>
    if s.questions = [] ∧ s.submitted = false ∧ topic ≠ "" then
      match parse_questions raw with
      | .error e => .error e
      | .ok qs => .ok { s with questions := qs }
    else .ok s
  | .select i choice =>
    if s.questions ≠ [] ∧ s.submitted = false ∧ i < s.questions.length then
      match pySetO s.user_answers i choice with
      | .error e => .error e
      | .ok ua => .ok { s with user_answers := ua }
    else .ok s
  | .hint i response =>
    if s.questions ≠ [] ∧ s.submitted = false ∧ i < s.questions.length then
      match pySetO s.hints i (some (pyStripS response)) with
      | .error e => .error e
      | .ok hs => .ok { s with hints := hs }
    else .ok s
  | .submit =>
    if s.questions ≠ [] ∧ s.submitted = false then .ok { s with submitted := true }
    else .ok s
  | .reset =>
    if s.submitted = true then .ok (reset_session s) else .ok s

/-- Session states reachable from the initial state by successful actions. -/
inductive Reachable : SessionState → Prop
  | init : Reachable initState
  | step {s s' : SessionState} {a : Action} :
      Reachable s → applyAction s a = .ok s' → Reachable s'

/-- Well-formed question block in the sense of the specification: a header
line starting with "Q", four option lines and one answer line of the form
`Answer: <letter>`. -/
def WFBlock (b : List String) : Prop :=
  ∃ h o1 o2 o3 o4 c, b = [h, o1, o2, o3, o4, String.mk ("Answer: ".data ++ [c])] ∧
    pyStartsWith h "Q" = true ∧ c.isAlpha = true

/-! ## Concrete fixtures used by counterexamples and witnesses -/

/-- Question with the answer field set to a backtick (code point 96, not a
letter a-d): Python computes `ord-of-backtick - ord("a") = -1` and negative
list indexing silently selects the last option. -/
def cexQ : Question :=
  { q := "Q1. pick one", options := ["o1", "o2", "o3", "o4"], answer := "`" }

/-- Concrete fixture: ten well-formed question blocks. -/
def tenBlocks : List (List String) :=
  [["Q1. sample?", "a) 1", "b) 2", "c) 3", "d) 4", "Answer: b"],
   ["Q2. sample?", "a) 1", "b) 2", "c) 3", "d) 4", "Answer: b"],
   ["Q3. sample?", "a) 1", "b) 2", "c) 3", "d) 4", "Answer: b"],
   ["Q4. sample?", "a) 1", "b) 2", "c) 3", "d) 4", "Answer: b"],
   ["Q5. sample?", "a) 1", "b) 2", "c) 3", "d) 4", "Answer: b"],
   ["Q6. sample?", "a) 1", "b) 2", "c) 3", "d) 4", "Answer: b"],
   ["Q7. sample?", "a) 1", "b) 2", "c) 3", "d) 4", "Answer: b"],
   ["Q8. sample?", "a) 1", "b) 2", "c) 3", "d) 4", "Answer: b"],
   ["Q9. sample?", "a) 1", "b) 2", "c) 3", "d) 4", "Answer: b"],
   ["Q10. sample?", "a) 1", "b) 2", "c) 3", "d) 4", "Answer: b"]]

/-- The ten fixture blocks joined into one raw completion text. -/
def tenRaw : String := String.intercalate "\n" tenBlocks.flatten

/-- Session state reached by generating a quiz whose completion parses to a
single question block. -/
def oneBlockState : SessionState :=
  { questions := [exQ], user_answers := List.replicate 10 none,
    hints := List.replicate 10 none, submitted := false }

/-- Submitted demo session: one parsed question, the user picked "b) 4". -/
def demoSubmitted : SessionState :=
  { questions := [exQ],
    user_answers := some "b) 4" :: List.replicate 9 none,
    hints := List.replicate 10 none, submitted := true }

/-- The single result row the demo session computes. -/
def demoRow : ScoreRow :=
  { q_num := 1, question := " What is 2+2?", your_answer := "b) 4",
    correct_answer := "b) 4", correct_index := some 1, is_correct := true,
    result := "✅ Correct" }

/-- Active demo session with one question and no hints yet. -/
def demoActive : SessionState :=
  { questions := [exQ], user_answers := List.replicate 10 none,
    hints := List.replicate 10 none, submitted := false }

/-- Demo session after one hint request on question 0. -/
def demoHintedA : SessionState :=
  { questions := [exQ], user_answers := List.replicate 10 none,
    hints := (List.replicate 10 none).set 0 (some "first"), submitted := false }

/-- Demo session after a second hint request on question 0. -/
def demoHintedB : SessionState :=
  { questions := [exQ], user_answers := List.replicate 10 none,
    hints := ((List.replicate 10 none).set 0 (some "first")).set 0 (some "second"),
    submitted := false }

/-- Demo session after a hint request with response "think" on question 0. -/
def demoHintedC : SessionState :=
  { questions := [exQ], user_answers := List.replicate 10 none,
    hints := (List.replicate 10 none).set 0 (some "think"), submitted := false }

/-! ## Helper lemmas -/

lemma get?_set_self {α : Type} (xs : List α) (i : Nat) (v : α) (h : i < xs.length) :
    (xs.set i v).get? i = some v := by
  induction xs generalizing i with
  | nil => simp at h
  | cons x xs ih =>
    cases i with
    | zero => rfl
    | succ n =>
      simp only [List.set, List.get?]
      exact ih n (by simpa using h)

lemma get?_set_ne {α : Type} (xs : List α) (i j : Nat) (v : α) (h : j ≠ i) :
    (xs.set i v).get? j = xs.get? j := by
  induction xs generalizing i j with
  | nil => simp
  | cons x xs ih =>
    cases i with
    | zero =>
      cases j with
      | zero => exact absurd rfl h
      | succ m => rfl
    | succ n =>
      cases j with
      | zero => rfl
      | succ m =>
        simp only [List.set, List.get?]
        exact ih n m (fun he => h (by rw [he]))

lemma splitCh_ne_nil (sep : Char) (l : List Char) : splitCh sep l ≠ [] := by
  cases l with
  | nil => simp [splitCh]
  | cons c cs =>
    simp only [splitCh]
    cases hs : splitCh sep cs with
    | nil => simp
    | cons p ps => by_cases hcs : c = sep <;> simp [hcs]

lemma splitCh_no_sep (sep : Char) (l : List Char) (h : sep ∉ l) : splitCh sep l = [l] := by
  induction l with
  | nil => rfl
  | cons c cs ih =>
    have hc : c ≠ sep := by rintro rfl; exact h (List.mem_cons_self _ _)
    have hcs : sep ∉ cs := fun hm => h (List.mem_cons_of_mem _ hm)
    simp [splitCh, ih hcs, hc]

lemma splitCh_append (sep : Char) (l1 l2 : List Char) (h : sep ∉ l1) :
    splitCh sep (l1 ++ sep :: l2) = l1 :: splitCh sep l2 := by
  induction l1 with
  | nil =>
    simp only [List.nil_append, splitCh]
    cases hs : splitCh sep l2 with
    | nil => exact absurd hs (splitCh_ne_nil sep l2)
    | cons p ps => simp
  | cons c cs ih =>
    have hc : c ≠ sep := by rintro rfl; exact h (List.mem_cons_self _ _)
    have hcs : sep ∉ cs := fun hm => h (List.mem_cons_of_mem _ hm)
    show splitCh sep (c :: (cs ++ sep :: l2)) = (c :: cs) :: splitCh sep l2
    simp only [splitCh]
    rw [ih hcs]
    simp [hc]

lemma alpha_not_ws (c : Char) (h : c.isAlpha = true) : c.isWhitespace = false := by
  by_contra hcon
  rw [Bool.not_eq_false] at hcon
  simp only [Char.isWhitespace, Bool.or_eq_true, decide_eq_true_eq] at hcon
  rcases hcon with ((rfl | rfl) | rfl) | rfl <;> exact absurd h (by decide)

lemma alpha_ne_colon (c : Char) (h : c.isAlpha = true) : c ≠ ':' := by
  rintro rfl; exact absurd h (by decide)

lemma stripCh_space_single (c : Char) (h : c.isWhitespace = false) :
    stripCh [' ', c] = [c] := by
  have hsp : (' ' : Char).isWhitespace = true := by decide
  simp [stripCh, List.dropWhile, hsp, h]

lemma ansOf_line (c : Char) (hc : c.isAlpha = true) :
    ansOf (String.mk ("Answer: ".data ++ [c])) = String.mk [c] := by
  have h1 : ("Answer: ".data ++ [c]) = "Answer".data ++ (':' :: ' ' :: [c]) := by
    rw [show "Answer: ".data = "Answer".data ++ [':', ' '] from by decide]
    simp
  have hno1 : ':' ∉ "Answer".data := by decide
  have hno2 : ':' ∉ (' ' :: [c]) := by
    simp only [List.mem_cons, List.not_mem_nil, or_false, not_or]
    exact ⟨by decide, fun he => alpha_ne_colon c hc he.symm⟩
  have hd : (String.mk ("Answer: ".data ++ [c])).data = "Answer".data ++ (':' :: ' ' :: [c]) := h1
  rw [ansOf, hd, splitCh_append _ _ _ hno1, splitCh_no_sep _ _ hno2]
  rw [show (["Answer".data, ' ' :: [c]] : List (List Char)).getLastD [] = ' ' :: [c] from rfl]
  rw [show (' ' :: [c] : List Char) = [' ', c] from rfl, stripCh_space_single c (alpha_not_ws c hc)]

lemma parse_go0_flatten (blocks : List (List String)) (hwf : ∀ b ∈ blocks, WFBlock b) :
    ∃ qs, parse_go0 blocks.flatten = .ok qs ∧ qs.length = blocks.length ∧
      ∀ q ∈ qs, q.options.length = 4 ∧ q.answer.data.length = 1 := by
  induction blocks with
  | nil => exact ⟨[], rfl, rfl, by simp⟩
  | cons b bs ih =>
    obtain ⟨h, o1, o2, o3, o4, c, hb, hq, hc⟩ := hwf b (List.mem_cons_self _ _)
    obtain ⟨qs, hqs, hlen, hall⟩ := ih (fun b' hb' => hwf b' (List.mem_cons_of_mem _ hb'))
    subst hb
    refine ⟨{ q := h, options := [o1, o2, o3, o4],
              answer := ansOf (String.mk ("Answer: ".data ++ [c])) } :: qs, ?_, ?_, ?_⟩
    · show parse_go0 (h :: o1 :: o2 :: o3 :: o4 ::
        String.mk ("Answer: ".data ++ [c]) :: bs.flatten) = _
      simp only [parse_go0, hq, if_true, hqs]
    · simp [hlen]
    · intro q hqmem
      rcases List.mem_cons.mp hqmem with rfl | hm
      · refine ⟨rfl, ?_⟩
        show (ansOf (String.mk ("Answer: ".data ++ [c]))).data.length = 1
        rw [ansOf_line c hc]
        rfl
      · exact hall q hm

lemma pyIndex_error_iff (xs : List String) (i : Int) :
    pyIndex xs i = .error .indexError ↔
      (i < -(xs.length : Int) ∨ (xs.length : Int) ≤ i) := by
  simp only [pyIndex]
  by_cases hneg : i < 0
  · rw [if_pos hneg]
    by_cases hc : 0 ≤ i + (xs.length : Int) ∧ i + (xs.length : Int) < (xs.length : Int)
    · rw [if_pos hc]
      exact iff_of_false (fun hcon => by cases hcon) (by omega)
    · rw [if_neg hc]
      exact iff_of_true rfl (by omega)
  · rw [if_neg hneg]
    by_cases hc : 0 ≤ i ∧ i < (xs.length : Int)
    · rw [if_pos hc]
      exact iff_of_false (fun hcon => by cases hcon) (by omega)
    · rw [if_neg hc]
      exact iff_of_true rfl (by omega)

lemma pyIndex_ne_typeError (xs : List String) (i : Int) :
    pyIndex xs i ≠ .error .typeError := by
  simp only [pyIndex]
  split <;> split <;> simp

/-! ## Claims C1, C2, C4 -/

/-- C1: the claim asks that on a raw completion containing a "Q" line with
fewer than 5 lines remaining, the parser fail with a ParseError and never
read out of bounds.  The code instead reads `lines[i+1]` past the end of the
line list and raises an uncaught IndexError, exactly the defect the
specification flags: on the truncated block "Q1. What is 2+2?" the parse
result is an IndexError, not a ParseError. -/
theorem C1_truncated_block_crashes :
    parse_questions "Q1. What is 2+2?" = .error .indexError := by decide

/-- C2 counterexample: the claim says isCorrect is true only when the answer
field is a letter in a-d, but for the answer field "`" (backtick) the code
computes correct_index = -1, Python indexing wraps to options[3] = "o4", and
a user selection of "o4" is marked correct. -/
theorem C2_counterexample :
    (scoreOne 0 cexQ (some "o4")).is_correct = true ∧
    cexQ.answer ≠ "a" ∧ cexQ.answer ≠ "b" ∧ cexQ.answer ≠ "c" ∧ cexQ.answer ≠ "d" := by
  decide

/-- C2 amended: isCorrect is true iff the answer field is a single character
c whose Python index `ord(c) - ord("a")` successfully indexes the options
list (negative indices down to -len(options) wrap to the end), and the
stored user answer is exactly that option string; in all other cases
isCorrect is false. -/
theorem C2_amended (idx : Nat) (q : Question) (ua : Option String) :
    (scoreOne idx q ua).is_correct = true ↔
      (match q.answer.data with
       | [c] => ∃ co, pyIndex q.options ((c.toNat : Int) - 97) = .ok co ∧ ua = some co
       | _ => False) := by
  simp only [scoreOne, scoreTry, pyOrd]
  cases hd : q.answer.data with
  | nil => simp
  | cons c cs =>
    cases cs with
    | nil =>
      cases hidx : pyIndex q.options ((c.toNat : Int) - 97) with
      | error e => simp [hidx]
      | ok co => simp [hidx, beq_iff_eq]
    | cons c2 cs2 => simp

/-- C2 witness: the specification's own example: question "Q1. What is
2+2?" with answer letter b and selection "b) 4" is marked correct. -/
theorem C2_witness : (scoreOne 0 exQ (some "b) 4")).is_correct = true :=
  (C2_amended 0 exQ (some "b) 4")).mpr ⟨"b) 4", by decide, rfl⟩

/-- C4 counterexample: the claim says any answer field that is not a
lowercase letter a-d is recovered to correctOption = "Unknown", but for the
answer field "`" (backtick) the code sets correct_index = -1 and Python's
negative indexing yields correctOption = options[3] = "o4", not "Unknown". -/
theorem C4_counterexample :
    (scoreOne 0 cexQ none).correct_answer = "o4" ∧
    (scoreOne 0 cexQ none).correct_answer ≠ "Unknown" ∧
    (scoreOne 0 cexQ none).correct_index = some (-1) ∧
    cexQ.answer ≠ "a" ∧ cexQ.answer ≠ "b" ∧ cexQ.answer ≠ "c" ∧ cexQ.answer ≠ "d" := by
  decide

/-- C4 amended: scoring recovers locally (the per-question scoring is a total
function) with correctIndex undefined exactly when the answer field is not a
single character, or its computed index `ord(c) - ord("a")` falls outside
Python's valid index range [-len(options), len(options)); single characters
with index in [-len(options), -1] (such as "`") instead select an option from
the end of the list.  Whenever correctIndex is undefined, correctOption is
the sentinel "Unknown" and isCorrect is false; in particular an answer field
"z" with a 4-option list always yields "Unknown" and isCorrect = false
regardless of the user's selection. -/
theorem C4_amended (idx : Nat) (q : Question) (ua : Option String) :
    ((scoreOne idx q ua).correct_index = none ↔
      (match q.answer.data with
       | [c] => ((c.toNat : Int) - 97 < -(q.options.length : Int) ∨
                 (q.options.length : Int) ≤ (c.toNat : Int) - 97)
       | _ => True)) ∧
    ((scoreOne idx q ua).correct_index = none →
      (scoreOne idx q ua).correct_answer = "Unknown" ∧
      (scoreOne idx q ua).is_correct = false) ∧
    (∀ (t o1 o2 o3 o4 : String) (ua2 : Option String),
      (scoreOne idx { q := t, options := [o1, o2, o3, o4], answer := "z" } ua2).correct_answer
          = "Unknown" ∧
      (scoreOne idx { q := t, options := [o1, o2, o3, o4], answer := "z" } ua2).is_correct
          = false) := by
  refine ⟨?_, ?_, ?_⟩
  · simp only [scoreOne, scoreTry, pyOrd]
    cases hd : q.answer.data with
    | nil => simp
    | cons c cs =>
      cases cs with
      | nil =>
        cases hidx : pyIndex q.options ((c.toNat : Int) - 97) with
        | error e =>
          cases e with
          | indexError =>
            simp only [hidx]
            exact iff_of_true (by trivial) ((pyIndex_error_iff _ _).mp hidx)
          | typeError => exact absurd hidx (pyIndex_ne_typeError _ _)
        | ok co =>
          simp only [hidx]
          refine iff_of_false (fun hcon => by cases hcon) (fun hbad => ?_)
          have hcontra : pyIndex q.options ((c.toNat : Int) - 97) = .error .indexError :=
            (pyIndex_error_iff _ _).mpr hbad
          rw [hidx] at hcontra
          cases hcontra
      | cons c2 cs2 => simp
  · cases hst : scoreTry q with
    | error e => simp [scoreOne, hst]
    | ok p => simp [scoreOne, hst]
  · intro t o1 o2 o3 o4 ua2
    have hz : scoreTry { q := t, options := [o1, o2, o3, o4], answer := "z" }
        = .error .indexError := by
      simp only [scoreTry, pyOrd, show ("z" : String).data = ['z'] from rfl]
      show (match pyIndex [o1, o2, o3, o4] (((122 : Nat) : Int) - 97) with
        | .error e => Except.error e
        | .ok co => Except.ok ((((122 : Nat) : Int) - 97), co)) = Except.error PyError.indexError
      rw [(by decide : (((122 : Nat) : Int) - 97) = 25)]
      rw [show pyIndex [o1, o2, o3, o4] 25 = .error .indexError from by
        unfold pyIndex
        norm_num]
    simp [scoreOne, hz]

/-- C4 witness: the specification's own example: a question whose answer
field is "z" with four options is scored with correctOption "Unknown" and
isCorrect false. -/
theorem C4_witness :
    (scoreOne 0 { q := "Qz. sample", options := ["w", "x", "y", "zz"], answer := "z" }
        none).correct_answer = "Unknown" ∧
    (scoreOne 0 { q := "Qz. sample", options := ["w", "x", "y", "zz"], answer := "z" }
        none).is_correct = false :=
  (C4_amended 0 { q := "Qz. sample", options := ["w", "x", "y", "zz"], answer := "z" }
    none).2.1 (by decide)

/-! ## Claim C3 -/

/-- C3: a raw completion consisting of exactly 10 well-formed blocks (its
stripped line split is the concatenation of 10 `WFBlock`s) parses to exactly
10 questions, each with exactly 4 options and a single-character answer
field; in particular the specification's example raw text parses to the one
expected question record. -/
theorem C3_wellformed_parse :
    (∀ (raw : String) (blocks : List (List String)),
        blocks.length = 10 →
        (∀ b ∈ blocks, WFBlock b) →
        pyLines raw = blocks.flatten →
        ∃ qs, parse_questions raw = .ok qs ∧ qs.length = 10 ∧
          ∀ q ∈ qs, q.options.length = 4 ∧ q.answer.data.length = 1) ∧
    parse_questions exRaw = .ok [exQ] := by
  constructor
  · intro raw blocks hlen hwf hsplit
    obtain ⟨qs, hqs, hl, hall⟩ := parse_go0_flatten blocks hwf
    refine ⟨qs, ?_, ?_, hall⟩
    · show parse_go0 (pyLines raw) = .ok qs
      rw [hsplit]
      exact hqs
    · rw [hl, hlen]
  · decide

lemma WFBlock_of (h o1 o2 o3 o4 : String) (hq : pyStartsWith h "Q" = true) :
    WFBlock [h, o1, o2, o3, o4, "Answer: b"] := by
  refine ⟨h, o1, o2, o3, o4, 'b', ?_, hq, by decide⟩
  rw [show (String.mk ("Answer: ".data ++ ['b'])) = "Answer: b" from by decide]

lemma tenBlocks_wf : ∀ b ∈ tenBlocks, WFBlock b := by
  intro b hb
  simp only [tenBlocks, List.mem_cons, List.not_mem_nil, or_false] at hb
  rcases hb with rfl | rfl | rfl | rfl | rfl | rfl | rfl | rfl | rfl | rfl <;>
    exact WFBlock_of _ _ _ _ _ (by decide)

set_option maxRecDepth 8000 in
/-- C3 witness: the concrete ten-block fixture parses to 10 four-option
questions with single-character answers. -/
theorem C3_witness :
    ∃ qs, parse_questions tenRaw = .ok qs ∧ qs.length = 10 ∧
      ∀ q ∈ qs, q.options.length = 4 ∧ q.answer.data.length = 1 :=
  C3_wellformed_parse.1 tenRaw tenBlocks rfl tenBlocks_wf (by decide)

/-! ## Claim C5 -/

/-- C5 counterexample: after a generation request whose completion parses to
1 question block, the reachable session state has 1 question but
`user_answers` and `hints` keep their fixed length 10, refuting the claim
that they always have the same length as `questions`. -/
theorem C5_counterexample :
    Reachable oneBlockState ∧
    oneBlockState.questions.length ≠ oneBlockState.user_answers.length ∧
    oneBlockState.questions.length ≠ oneBlockState.hints.length :=
  ⟨Reachable.step Reachable.init
      (show applyAction initState (Action.generate "Math" exRaw) = .ok oneBlockState by decide),
   by decide, by decide⟩

lemma pySetO_ok {xs : List (Option String)} {i : Nat} {v : Option String}
    {ys : List (Option String)} (h : pySetO xs i v = .ok ys) :
    i < xs.length ∧ ys = xs.set i v := by
  simp only [pySetO] at h
  split at h
  · cases h
    exact ⟨by assumption, rfl⟩
  · cases h

lemma applyAction_dims {s s' : SessionState} {a : Action}
    (h : applyAction s a = .ok s')
    (hua : s.user_answers.length = 10) (hh : s.hints.length = 10) :
    s'.user_answers.length = 10 ∧ s'.hints.length = 10 := by
  cases a with
  | generate topic raw =>
    simp only [applyAction] at h
    split at h
    · cases hp : parse_questions raw with
      | error e => simp only [hp] at h; cases h
      | ok qs =>
        simp only [hp] at h
        cases h
        exact ⟨hua, hh⟩
    · cases h
      exact ⟨hua, hh⟩
  | select i choice =>
    simp only [applyAction] at h
    split at h
    · cases hset : pySetO s.user_answers i choice with
      | error e => simp only [hset] at h; cases h
      | ok ua =>
        simp only [hset] at h
        cases h
        obtain ⟨hlt, rfl⟩ := pySetO_ok hset
        refine ⟨?_, hh⟩
        show (s.user_answers.set i choice).length = 10
        rw [List.length_set]
        exact hua
    · cases h
      exact ⟨hua, hh⟩
  | hint i response =>
    simp only [applyAction] at h
    split at h
    · cases hset : pySetO s.hints i (some (pyStripS response)) with
      | error e => simp only [hset] at h; cases h
      | ok hs1 =>
        simp only [hset] at h
        cases h
        obtain ⟨hlt, rfl⟩ := pySetO_ok hset
        refine ⟨hua, ?_⟩
        show (s.hints.set i (some (pyStripS response))).length = 10
        rw [List.length_set]
        exact hh
    · cases h
      exact ⟨hua, hh⟩
  | submit =>
    simp only [applyAction] at h
    split at h
    · cases h
      exact ⟨hua, hh⟩
    · cases h
      exact ⟨hua, hh⟩
  | reset =>
    simp only [applyAction] at h
    split at h
    · cases h
      exact ⟨rfl, rfl⟩
    · cases h
      exact ⟨hua, hh⟩

/-- C5 amended: in every reachable session state, `user_answers` and `hints`
each have the fixed length 10 (`[None] * 10`), regardless of how many
question blocks the generation request parsed; their length equals the
length of `questions` only in the case of exactly 10 parsed questions. -/
theorem C5_amended (s : SessionState) (h : Reachable s) :
    s.user_answers.length = 10 ∧ s.hints.length = 10 := by
  induction h with
  | init => exact ⟨rfl, rfl⟩
  | step hr hstep ih => exact applyAction_dims hstep ih.1 ih.2

/-- C5 witness: the initial state satisfies the amended invariant. -/
theorem C5_witness : initState.user_answers.length = 10 ∧ initState.hints.length = 10 :=
  C5_amended initState Reachable.init

/-! ## Claim C6 -/

lemma score_go_count (qs : List Question) (uas : List (Option String)) :
    ∀ (idx score : Nat) (rows : List ScoreRow),
      score_go qs uas idx = .ok (score, rows) →
      score = rows.countP (fun r => r.is_correct) := by
  induction qs with
  | nil =>
    intro idx score rows h
    simp only [score_go] at h
    cases h
    rfl
  | cons q qs ih =>
    intro idx score rows h
    simp only [score_go] at h
    cases hget : pyGetO uas idx with
    | error e => simp only [hget] at h; cases h
    | ok ua =>
      simp only [hget] at h
      cases hrec : score_go qs uas (idx + 1) with
      | error e => simp only [hrec] at h; cases h
      | ok p =>
        obtain ⟨s0, rows0⟩ := p
        simp only [hrec] at h
        cases h
        have hs0 := ih (idx + 1) s0 rows0 hrec
        rw [List.countP_cons, ← hs0]
        cases hic : (scoreOne idx q ua).is_correct <;> simp [hic] <;> omega

/-- C6: whenever the results section of a submitted session computes a score
at all, the reported score equals the number of result rows marked correct,
and the displayed score line has the numerator `score` and the literal
denominator 10 regardless of how many questions were parsed. -/
theorem C6_score_count (s : SessionState) (score : Nat) (rows : List ScoreRow)
    (hsub : s.submitted = true)
    (h : compute_results s.questions s.user_answers = .ok (score, rows)) :
    score = rows.countP (fun r => r.is_correct) ∧
    score_display s.questions s.user_answers = .ok (score, 10) := by
  refine ⟨score_go_count _ _ 0 score rows h, ?_⟩
  simp only [score_display, compute_results] at h ⊢
  rw [h]

/-- C6 witness: the demo session scores 1 and displays 1 / 10. -/
theorem C6_witness :
    1 = [demoRow].countP (fun r => r.is_correct) ∧
    score_display demoSubmitted.questions demoSubmitted.user_answers = .ok (1, 10) :=
  C6_score_count demoSubmitted 1 [demoRow] rfl (by decide)

/-! ## Claim C7 -/

/-- C7: the reset handler takes every session state to the initial Setup
state (empty questions, all-unset answers and hints, submitted = false), and
performing it any positive number of times in a row gives the same state as
performing it once. -/
theorem C7_reset_idempotent (s : SessionState) (n : Nat) :
    reset_session s = initState ∧ reset_session^[n + 1] s = initState := by
  refine ⟨rfl, ?_⟩
  induction n generalizing s with
  | zero => rfl
  | succ m ih =>
    rw [Function.iterate_succ_apply]
    exact ih (reset_session s)

/-! ## Claim C8 -/

/-- C8: two successive hint requests for the same on-screen question index i
leave exactly the most recent (stripped) hint response stored at hints[i]. -/
theorem C8_hint_last_write_wins (s s1 s2 : SessionState) (i : Nat) (r1 r2 : String)
    (hq : s.questions ≠ []) (hsub : s.submitted = false) (hi : i < s.questions.length)
    (h1 : applyAction s (.hint i r1) = .ok s1)
    (h2 : applyAction s1 (.hint i r2) = .ok s2) :
    s2.hints.get? i = some (some (pyStripS r2)) := by
  simp only [applyAction] at h1 h2
  rw [if_pos ⟨hq, hsub, hi⟩] at h1
  cases hset1 : pySetO s.hints i (some (pyStripS r1)) with
  | error e => simp only [hset1] at h1; cases h1
  | ok hs1 =>
    simp only [hset1] at h1
    cases h1
    obtain ⟨hlt1, rfl⟩ := pySetO_ok hset1
    rw [if_pos ⟨hq, hsub, hi⟩] at h2
    cases hset2 : pySetO (s.hints.set i (some (pyStripS r1))) i (some (pyStripS r2)) with
    | error e => simp only [hset2] at h2; cases h2
    | ok hs2 =>
      simp only [hset2] at h2
      cases h2
      obtain ⟨hlt2, rfl⟩ := pySetO_ok hset2
      exact get?_set_self _ i _ hlt2

/-- C8 witness: two concrete hint requests on question 0 leave the second
response stored. -/
theorem C8_witness : demoHintedB.hints.get? 0 = some (some (pyStripS "second")) :=
  C8_hint_last_write_wins demoActive demoHintedA demoHintedB 0 "first" "second"
    (by decide) rfl (by decide) (by decide) (by decide)

/-! ## Claim C9 -/

/-- C9: once a session is submitted, the only successful action that leaves
the submitted state is the reset action, and it lands exactly in the initial
Setup state; in particular the session never returns to an Active state
except through the full reset. -/
theorem C9_submitted_only_reset (s s' : SessionState) (a : Action)
    (hs : s.submitted = true) (h : applyAction s a = .ok s')
    (h' : s'.submitted = false) : s' = initState ∧ a = Action.reset := by
  cases a with
  | generate topic raw =>
    simp only [applyAction] at h
    rw [if_neg (by simp [hs])] at h
    cases h
    simp [hs] at h'
  | select i choice =>
    simp only [applyAction] at h
    rw [if_neg (by simp [hs])] at h
    cases h
    simp [hs] at h'
  | hint i response =>
    simp only [applyAction] at h
    rw [if_neg (by simp [hs])] at h
    cases h
    simp [hs] at h'
  | submit =>
    simp only [applyAction] at h
    rw [if_neg (by simp [hs])] at h
    cases h
    simp [hs] at h'
  | reset =>
    simp only [applyAction] at h
    rw [if_pos hs] at h
    cases h
    exact ⟨rfl, rfl⟩

/-- C9 witness: resetting the submitted demo session lands in the initial
state. -/
theorem C9_witness : initState = initState ∧ Action.reset = Action.reset :=
  C9_submitted_only_reset demoSubmitted initState Action.reset rfl (by decide) rfl

/-! ## Claim C10 -/

/-- C10: a hint request for question i changes at most hints[i]: the
questions, every stored user answer, the submitted flag and every other hint
cell are unchanged. -/
theorem C10_hint_frame (s s' : SessionState) (i : Nat) (r : String)
    (h : applyAction s (.hint i r) = .ok s') :
    s'.questions = s.questions ∧ s'.user_answers = s.user_answers ∧
    s'.submitted = s.submitted ∧
    ∀ j, j ≠ i → s'.hints.get? j = s.hints.get? j := by
  simp only [applyAction] at h
  split at h
  · cases hset : pySetO s.hints i (some (pyStripS r)) with
    | error e => simp only [hset] at h; cases h
    | ok hs1 =>
      simp only [hset] at h
      cases h
      obtain ⟨hlt, rfl⟩ := pySetO_ok hset
      exact ⟨rfl, rfl, rfl, fun j hj => get?_set_ne _ _ _ _ hj⟩
  · cases h
    exact ⟨rfl, rfl, rfl, fun j hj => rfl⟩

/-- C10 witness: the concrete hint request on question 0 leaves questions,
answers, the submitted flag, and hint cell 1 unchanged. -/
theorem C10_witness :
    demoHintedC.questions = demoActive.questions ∧
    demoHintedC.user_answers = demoActive.user_answers ∧
    demoHintedC.submitted = demoActive.submitted ∧
    demoHintedC.hints.get? 1 = demoActive.hints.get? 1 := by
  obtain ⟨ha, hb, hc, hd⟩ := C10_hint_frame demoActive demoHintedC 0 "think" (by decide)
  exact ⟨ha, hb, hc, hd 1 (by decide)⟩

end QuizCraft
